import Mathlib

/-
  Verification of the BAGEL ComfyUI node pack (nodes.py and the package
  init file) against its natural-language specification.

  The development shallowly embeds the original decision-making logic of
  the repository: the device-map post-processing pass of the model loader,
  the fallible loading sequence, the per-call generator reseed preamble,
  the per-variant hyperparameter assembly of the five inference dispatch
  nodes, the identity parameter-capture nodes, the declared input schemas
  versus the designated function parameter lists, and the extraction of
  result keys from the inferencer output mapping.
-/

set_option autoImplicit false

namespace BagelNodes

/- ------------------------------------------------------------------ -/
/- Device placement model (LoadBAGELModel.load_model, nodes.py 95-124) -/
/- ------------------------------------------------------------------ -/

/-- A compute-device identifier as it can occur as a value of the device
map returned by infer_auto_device_map or written by the post-processing
pass: an integer GPU index, the cpu or disk offload targets, or the
literal string cuda:N written by the single-device branch. -/
inductive Device where
  | idx : Nat → Device
  | cpu : Device
  | disk : Device
  | cudaStr : Nat → Device
deriving DecidableEq, Repr

/-- A Python value stored in the device-map dict: a device identifier or
None (the None case arises when dict.get misses and the result is stored
back into the dict). -/
abbrev PyVal := Option Device

/-- The device map: an insertion-ordered dictionary from module names to
stored values, modelled as an association list with unique update. -/
abbrev DeviceMap := List (String × PyVal)

/-- Dictionary lookup: the stored value of the first matching key. -/
def lookupDM : DeviceMap → String → Option PyVal
  | [], _ => none
  | (k0, v0) :: rest, k => if k0 = k then some v0 else lookupDM rest k

/-- Dictionary update: replace the value of an existing key in place,
append the pair when the key is new. This is Python dict assignment. -/
def setDM : DeviceMap → String → PyVal → DeviceMap
  | [], k, v => [(k, v)]
  | (k0, v0) :: rest, k, v =>
    if k0 = k then (k0, v) :: rest else (k0, v0) :: setDM rest k v

/-- Python membership test k in d. -/
def containsDM (m : DeviceMap) (k : String) : Bool :=
  (lookupDM m k).isSome

/-- Python d.get(k): the stored value, or None when the key is absent. -/
def pyGet (m : DeviceMap) (k : String) : PyVal :=
  (lookupDM m k).getD none

/-- Python d.get(k, default). -/
def pyGetD (m : DeviceMap) (k : String) (d : PyVal) : PyVal :=
  (lookupDM m k).getD d

/-- The co-location set of nodes.py lines 102-110: module names that must
share one device. The source lists seven names. -/
def same_device_modules : List String :=
  [ "language_model.model.embed_tokens"
  , "time_embedder"
  , "latent_pos_embed"
  , "vae2llm"
  , "llm2vae"
  , "connector"
  , "vit_pos_embed" ]

/-- The post-processing pass over the automatic placement plan,
nodes.py lines 112-123. With exactly one device, the first module name is
read with default cuda:0 and every listed name is forced to that value
when present, and pinned to cuda:0 when absent. Otherwise the first name
is read with default None and only the names present in the plan are
overwritten. -/
def postProcessDeviceMap (deviceCount : Nat) (m : DeviceMap) : DeviceMap :=
  if deviceCount = 1 then
    List.foldl
      (fun acc k =>
        if containsDM acc k then
          setDM acc k (pyGetD m (List.headI same_device_modules) (some (Device.cudaStr 0)))
        else
          setDM acc k (some (Device.cudaStr 0)))
      m same_device_modules
  else
    List.foldl
      (fun acc k =>
        if containsDM acc k then
          setDM acc k (pyGet m (List.headI same_device_modules))
        else acc)
      m same_device_modules

/- ------------------------------------------------------ -/
/- Parameter capture nodes (nodes.py 158-160 and 177-179) -/
/- ------------------------------------------------------ -/

/-- BagelPrompt.input_text: binds the given text to prompt and returns it. -/
def input_text (text : String) : String :=
  let prompt := text
  prompt

/-- LoadEditImage.input_image: binds the given path to image and returns it. -/
def input_image (image_path : String) : String :=
  let image := image_path
  image

/- --------------------------------------------------------------- -/
/- Shared reseed preamble of the five dispatch nodes               -/
/- (nodes.py 302-309, 448-455, 597-604, 743-750, 807-814)          -/
/- --------------------------------------------------------------- -/

/-- The process-wide random-generator state mutated by every dispatch
call: the python random module, the numpy generator, the torch cpu
generator, the torch cuda generators, and the two cudnn flags. -/
structure RngState where
  py_random : Nat
  np_random : Nat
  torch_cpu : Nat
  torch_cuda : Nat
  torch_cuda_all : Nat
  cudnn_deterministic : Bool
  cudnn_benchmark : Bool
deriving DecidableEq, Repr

/-- The reseed preamble executed verbatim by all five dispatch variants:
random.seed, np.random.seed, torch.manual_seed, then, when cuda is
available, torch.cuda.manual_seed and torch.cuda.manual_seed_all, and
finally the two cudnn determinism flags. -/
def seed_all (seed : Nat) (cuda_available : Bool) (st : RngState) : RngState :=
  let st1 : RngState := { st with py_random := seed }
  let st2 : RngState := { st1 with np_random := seed }
  let st3 : RngState := { st2 with torch_cpu := seed }
  let st4 : RngState :=
    if cuda_available then
      { st3 with torch_cuda := seed, torch_cuda_all := seed }
    else st3
  { st4 with cudnn_deterministic := true, cudnn_benchmark := false }

/-- The generator states a downstream random draw can observe after the
preamble: the three cpu-side generators and, when cuda is available, the
two cuda generators. -/
def observed_gens (cuda : Bool) (st : RngState) :
    Nat × Nat × Nat × Option (Nat × Nat) :=
  (st.py_random, st.np_random, st.torch_cpu,
   if cuda then some (st.torch_cuda, st.torch_cuda_all) else none)

/- ------------------------------------------------------------- -/
/- Model loader (LoadBAGELModel.load_model, nodes.py 50-138)     -/
/- ------------------------------------------------------------- -/

/-- The parsed llm_config.json together with the three fields the loader
overrides; the remaining parsed content is kept opaque as raw_id. -/
structure Qwen2Config where
  qk_norm : Bool
  tie_word_embeddings : Bool
  layer_module : String
  raw_id : Nat
deriving DecidableEq, Repr

/-- The parsed vit_config.json together with the two fields the loader
overrides; the remaining parsed content is kept opaque as raw_id. -/
structure SiglipVisionConfig where
  rope : Bool
  num_hidden_layers : Nat
  raw_id : Nat
deriving DecidableEq, Repr

/-- The configuration derived from the autoencoder archive. -/
structure VAEConfig where
  z_channels : Nat
  downsample : Nat
deriving DecidableEq, Repr

/-- The autoencoder runtime handle, opaque to this repository. -/
structure AEModel where
  raw_id : Nat
deriving DecidableEq, Repr

/-- The tokenizer handle, opaque to this repository. -/
structure Tokenizer where
  raw_id : Nat
deriving DecidableEq, Repr

/-- The composed top-level Bagel configuration, nodes.py 67-77. -/
structure BagelConfig where
  visual_gen : Bool
  visual_und : Bool
  llm_config : Qwen2Config
  vit_config : SiglipVisionConfig
  vae_config : VAEConfig
  vit_max_num_patch_per_side : Nat
  connector_act : String
  latent_patch_size : Nat
  max_latent_size : Nat
deriving DecidableEq, Repr

/-- The placed main model handle: its configuration, the structural
conv-to-linear fix-up flag, the device map actually used for dispatch,
the load dtype and the inference-mode flag. -/
structure BagelModel where
  config : BagelConfig
  conv2d_converted : Bool
  device_map : DeviceMap
  dtype : String
  eval_mode : Bool
deriving DecidableEq, Repr

/-- A deterministic image-preprocessing transform, created with a fixed
(max dimension, target dimension, patch size) triple. -/
structure ImageTransform where
  max_dim : Nat
  target_dim : Nat
  patch_size : Nat
deriving DecidableEq, Repr

/-- The six-element bundle returned by LoadBAGELModel.load_model,
nodes.py line 138. -/
structure ModelBundle where
  model : BagelModel
  vae_model : AEModel
  tokenizer : Tokenizer
  vae_transform : ImageTransform
  vit_transform : ImageTransform
  new_token_ids : List Nat
deriving DecidableEq, Repr

/-- The environment of one load_model call: the outcomes of the external
fallible steps (file parsing, archive loading, tokenizer loading with its
special-token extension, checkpoint streaming) and the cuda device count
with the automatic placement plan. A none outcome models an absent or
malformed file; checkpoint_ok = false models a checkpoint whose tensor
shapes disagree with the constructed graph. -/
structure LoaderEnv where
  cuda_device_count : Nat
  llm_config_file : Option Qwen2Config
  vit_config_file : Option SiglipVisionConfig
  ae_file : Option (AEModel × VAEConfig)
  tokenizer_file : Option (Tokenizer × List Nat)
  auto_device_map : DeviceMap
  checkpoint_ok : Bool

/-- LoadBAGELModel.load_model, nodes.py 50-138: the sequential fallible
loading pipeline. Each external step either produces its value or raises;
a raise propagates and nothing is returned. The pure steps (config
composition, overrides, transforms, device-map post-processing, eval) are
computed inline. -/
def load_model (env : LoaderEnv) : Except String ModelBundle :=
  match env.llm_config_file with
  | none => Except.error "llm_config.json absent or malformed"
  | some llm0 =>
    let llm_config : Qwen2Config :=
      { llm0 with
          qk_norm := true
          tie_word_embeddings := false
          layer_module := "Qwen2MoTDecoderLayer" }
    match env.vit_config_file with
    | none => Except.error "vit_config.json absent or malformed"
    | some vit0 =>
      let vit_config : SiglipVisionConfig :=
        { vit0 with
            rope := false
            num_hidden_layers := vit0.num_hidden_layers - 1 }
      match env.ae_file with
      | none => Except.error "ae.safetensors absent or malformed"
      | some (vae_model, vae_config) =>
        let config : BagelConfig :=
          { visual_gen := true
            visual_und := true
            llm_config := llm_config
            vit_config := vit_config
            vae_config := vae_config
            vit_max_num_patch_per_side := 70
            connector_act := "gelu_pytorch_tanh"
            latent_patch_size := 2
            max_latent_size := 64 }
        match env.tokenizer_file with
        | none => Except.error "tokenizer files absent or malformed"
        | some (tokenizer, new_token_ids) =>
          let vae_transform : ImageTransform :=
            { max_dim := 1024, target_dim := 512, patch_size := 16 }
          let vit_transform : ImageTransform :=
            { max_dim := 980, target_dim := 224, patch_size := 14 }
          let device_map :=
            postProcessDeviceMap env.cuda_device_count env.auto_device_map
          if env.checkpoint_ok then
            Except.ok
              { model :=
                  { config := config
                    conv2d_converted := true
                    device_map := device_map
                    dtype := "bfloat16"
                    eval_mode := true }
                vae_model := vae_model
                tokenizer := tokenizer
                vae_transform := vae_transform
                vit_transform := vit_transform
                new_token_ids := new_token_ids }
          else
            Except.error "ema.safetensors does not match the constructed graph"

/- ------------------------------------------------------------------ -/
/- Inference dispatch nodes: hyperparameter assembly and invocation   -/
/- ------------------------------------------------------------------ -/

/-- The keyword set forwarded to the inferencer. Each field is optional:
a none field models a keyword the variant does not pass. Numeric-valued
keywords use exact rationals for the float literals of the source. -/
structure InferenceHyper where
  max_think_token_n : Option Nat
  do_sample : Option Bool
  cfg_text_scale : Option ℚ
  cfg_img_scale : Option ℚ
  cfg_interval : Option (List ℚ)
  timestep_shift : Option ℚ
  num_timesteps : Option Nat
  cfg_renorm_min : Option ℚ
  cfg_renorm_type : Option String
deriving DecidableEq, Repr

/-- The request-scoped inferencer wrapper constructed by every dispatch
call from the six bundle handles, nodes.py 293-300 and analogues. -/
structure InterleaveInferencer where
  model : BagelModel
  vae_model : AEModel
  tokenizer : Tokenizer
  vae_transform : ImageTransform
  vit_transform : ImageTransform
  new_token_ids : List Nat
deriving DecidableEq, Repr

/-- One invocation of the inferencer callable: the positional request
inputs and flags as passed by the dispatch node, and the keyword set.
A flag the source does not pass is recorded with its inferencer default
(think = false, understanding_output = false). -/
structure InferencerCall where
  text : String
  image : Option String
  think : Bool
  understanding_output : Bool
  hyper : InferenceHyper
deriving DecidableEq, Repr

/-- The parameters of ImageGeneration.generate, nodes.py 289-291. -/
structure GenerationArgs where
  model : BagelModel
  vae_model : AEModel
  tokenizer : Tokenizer
  vae_transform : ImageTransform
  vit_transform : ImageTransform
  new_token_ids : List Nat
  prompt : String
  image_ratio : String
  seed : Nat
  cfg_text_scale : ℚ
  cfg_img_scale : ℚ
  cfg_interval : ℚ
  timestep_shift : ℚ
  num_timesteps : Nat
  cfg_renorm_min : ℚ
  cfg_renorm_type : String
  text_temperature : ℚ

/-- The parameters of ImageThinkGeneration.generate, nodes.py 435-437.
The signature has no image_ratio parameter. -/
structure ThinkGenerationArgs where
  model : BagelModel
  vae_model : AEModel
  tokenizer : Tokenizer
  vae_transform : ImageTransform
  vit_transform : ImageTransform
  new_token_ids : List Nat
  prompt : String
  seed : Nat
  max_think_token_n : Nat
  cfg_text_scale : ℚ
  cfg_img_scale : ℚ
  timestep_shift : ℚ
  num_timesteps : Nat
  cfg_renorm_min : ℚ
  cfg_interval : ℚ
  cfg_renorm_type : String
  text_temperature : ℚ

/-- The parameters of ImageEditing.editing, nodes.py 585-586. -/
structure EditingArgs where
  model : BagelModel
  vae_model : AEModel
  tokenizer : Tokenizer
  vae_transform : ImageTransform
  vit_transform : ImageTransform
  new_token_ids : List Nat
  prompt : String
  image : String
  seed : Nat
  cfg_text_scale : ℚ
  cfg_img_scale : ℚ
  timestep_shift : ℚ
  num_timesteps : Nat
  cfg_renorm_min : ℚ

/-- The parameters of ImageThinkEditing.editing, nodes.py 731-732. -/
structure ThinkEditingArgs where
  model : BagelModel
  vae_model : AEModel
  tokenizer : Tokenizer
  vae_transform : ImageTransform
  vit_transform : ImageTransform
  new_token_ids : List Nat
  prompt : String
  image : String
  seed : Nat
  max_think_token_n : Nat
  cfg_text_scale : ℚ
  cfg_img_scale : ℚ
  timestep_shift : ℚ
  num_timesteps : Nat
  cfg_renorm_min : ℚ

/-- The parameters of ImageUnderstanding.understanding, nodes.py 795-796. -/
structure UnderstandingArgs where
  model : BagelModel
  vae_model : AEModel
  tokenizer : Tokenizer
  vae_transform : ImageTransform
  vit_transform : ImageTransform
  new_token_ids : List Nat
  prompt : String
  image : String
  seed : Nat
  max_think_token_n : Nat

/-- The inferencer wrapper built from the six handle arguments; the same
construction appears verbatim in every dispatch variant. -/
def mkInferencer (model : BagelModel) (vae_model : AEModel)
    (tokenizer : Tokenizer) (vae_transform vit_transform : ImageTransform)
    (new_token_ids : List Nat) : InterleaveInferencer :=
  { model := model
    vae_model := vae_model
    tokenizer := tokenizer
    vae_transform := vae_transform
    vit_transform := vit_transform
    new_token_ids := new_token_ids }

/-- The keyword set of ImageGeneration.generate, nodes.py 311-319: the
interval is the literal [0.4, 1.0] and the renorm type is the user
selection. -/
def ImageGeneration_inference_hyper (a : GenerationArgs) : InferenceHyper :=
  { max_think_token_n := none
    do_sample := none
    cfg_text_scale := some a.cfg_text_scale
    cfg_img_scale := some a.cfg_img_scale
    cfg_interval := some [0.4, 1.0]
    timestep_shift := some a.timestep_shift
    num_timesteps := some a.num_timesteps
    cfg_renorm_min := some a.cfg_renorm_min
    cfg_renorm_type := some a.cfg_renorm_type }

/-- ImageGeneration.generate, nodes.py 289-324, up to the inferencer
invocation at line 321: the constructed wrapper and the call it makes. -/
def ImageGeneration_dispatch (a : GenerationArgs) :
    InterleaveInferencer × InferencerCall :=
  (mkInferencer a.model a.vae_model a.tokenizer a.vae_transform
     a.vit_transform a.new_token_ids,
   { text := a.prompt
     image := none
     think := false
     understanding_output := false
     hyper := ImageGeneration_inference_hyper a })

/-- The keyword set of ImageThinkGeneration.generate, nodes.py 457-468:
the interval is the literal [0.4, 1.0] and the renorm type is the literal
string global; the user selections for both are ignored. -/
def ImageThinkGeneration_inference_hyper (a : ThinkGenerationArgs) :
    InferenceHyper :=
  { max_think_token_n := some a.max_think_token_n
    do_sample := some false
    cfg_text_scale := some a.cfg_text_scale
    cfg_img_scale := some a.cfg_img_scale
    cfg_interval := some [0.4, 1.0]
    timestep_shift := some a.timestep_shift
    num_timesteps := some a.num_timesteps
    cfg_renorm_min := some a.cfg_renorm_min
    cfg_renorm_type := some "global" }

/-- ImageThinkGeneration.generate, nodes.py 435-474, up to the inferencer
invocation at line 470 which passes think=True. -/
def ImageThinkGeneration_dispatch (a : ThinkGenerationArgs) :
    InterleaveInferencer × InferencerCall :=
  (mkInferencer a.model a.vae_model a.tokenizer a.vae_transform
     a.vit_transform a.new_token_ids,
   { text := a.prompt
     image := none
     think := true
     understanding_output := false
     hyper := ImageThinkGeneration_inference_hyper a })

/-- The keyword set of ImageEditing.editing, nodes.py 606-614: the
interval is the literal [0.0, 1.0] and the renorm type is the literal
string text_channel. -/
def ImageEditing_inference_hyper (a : EditingArgs) : InferenceHyper :=
  { max_think_token_n := none
    do_sample := none
    cfg_text_scale := some a.cfg_text_scale
    cfg_img_scale := some a.cfg_img_scale
    cfg_interval := some [0.0, 1.0]
    timestep_shift := some a.timestep_shift
    num_timesteps := some a.num_timesteps
    cfg_renorm_min := some a.cfg_renorm_min
    cfg_renorm_type := some "text_channel" }

/-- ImageEditing.editing, nodes.py 585-619, up to the inferencer
invocation at line 616 which passes the source image. -/
def ImageEditing_dispatch (a : EditingArgs) :
    InterleaveInferencer × InferencerCall :=
  (mkInferencer a.model a.vae_model a.tokenizer a.vae_transform
     a.vit_transform a.new_token_ids,
   { text := a.prompt
     image := some a.image
     think := false
     understanding_output := false
     hyper := ImageEditing_inference_hyper a })

/-- The keyword set of ImageThinkEditing.editing, nodes.py 752-763: the
interval is the literal [0.0, 1.0] and the renorm type is the literal
string text_channel. -/
def ImageThinkEditing_inference_hyper (a : ThinkEditingArgs) :
    InferenceHyper :=
  { max_think_token_n := some a.max_think_token_n
    do_sample := some false
    cfg_text_scale := some a.cfg_text_scale
    cfg_img_scale := some a.cfg_img_scale
    cfg_interval := some [0.0, 1.0]
    timestep_shift := some a.timestep_shift
    num_timesteps := some a.num_timesteps
    cfg_renorm_min := some a.cfg_renorm_min
    cfg_renorm_type := some "text_channel" }

/-- ImageThinkEditing.editing, nodes.py 731-769, up to the inferencer
invocation at line 765 which passes the source image and think=True. -/
def ImageThinkEditing_dispatch (a : ThinkEditingArgs) :
    InterleaveInferencer × InferencerCall :=
  (mkInferencer a.model a.vae_model a.tokenizer a.vae_transform
     a.vit_transform a.new_token_ids,
   { text := a.prompt
     image := some a.image
     think := true
     understanding_output := false
     hyper := ImageThinkEditing_inference_hyper a })

/-- The keyword set of ImageUnderstanding.understanding, nodes.py
816-820: the source writes the literal 1000 for max_think_token_n, not
the function parameter of the same name. -/
def ImageUnderstanding_inference_hyper (_a : UnderstandingArgs) :
    InferenceHyper :=
  { max_think_token_n := some 1000
    do_sample := some false
    cfg_text_scale := none
    cfg_img_scale := none
    cfg_interval := none
    timestep_shift := none
    num_timesteps := none
    cfg_renorm_min := none
    cfg_renorm_type := none }

/-- ImageUnderstanding.understanding, nodes.py 795-825, up to the
inferencer invocation at line 822 which passes the source image and
understanding_output=True. -/
def ImageUnderstanding_dispatch (a : UnderstandingArgs) :
    InterleaveInferencer × InferencerCall :=
  (mkInferencer a.model a.vae_model a.tokenizer a.vae_transform
     a.vit_transform a.new_token_ids,
   { text := a.prompt
     image := some a.image
     think := false
     understanding_output := true
     hyper := ImageUnderstanding_inference_hyper a })

/- ------------------------------------------------------------------ -/
/- Result extraction from the inferencer output mapping               -/
/- ------------------------------------------------------------------ -/

/-- The mapping returned by the inferencer: optional image (an opaque
pixel-buffer handle) and optional text. -/
structure InferenceResult where
  image : Option Nat
  text : Option String
deriving DecidableEq, Repr

/-- Line 322: subscripting the result with the key image; a missing key
raises KeyError and the node returns nothing. -/
def ImageGeneration_extract (r : InferenceResult) : Except String Nat :=
  match r.image with
  | some img => Except.ok img
  | none => Except.error "KeyError: image"

/-- Lines 471-472: subscripting with image then with text. -/
def ImageThinkGeneration_extract (r : InferenceResult) :
    Except String (Nat × String) :=
  match r.image with
  | none => Except.error "KeyError: image"
  | some img =>
    match r.text with
    | none => Except.error "KeyError: text"
    | some t => Except.ok (img, t)

/-- Line 617: subscripting the result with the key image. -/
def ImageEditing_extract (r : InferenceResult) : Except String Nat :=
  match r.image with
  | some img => Except.ok img
  | none => Except.error "KeyError: image"

/-- Lines 766-767: subscripting with image then with text. -/
def ImageThinkEditing_extract (r : InferenceResult) :
    Except String (Nat × String) :=
  match r.image with
  | none => Except.error "KeyError: image"
  | some img =>
    match r.text with
    | none => Except.error "KeyError: text"
    | some t => Except.ok (img, t)

/-- Line 823: subscripting the result with the key text. -/
def ImageUnderstanding_extract (r : InferenceResult) : Except String String :=
  match r.text with
  | some t => Except.ok t
  | none => Except.error "KeyError: text"

/- ------------------------------------------------------------------ -/
/- Declared input schemas and designated function parameter lists     -/
/- ------------------------------------------------------------------ -/

/-- The required input names declared by LoadBAGELModel.INPUT_TYPES. -/
def LoadBAGELModel_required_inputs : List String := ["model_path"]

/-- The parameters of load_model, self excluded. -/
def LoadBAGELModel_function_params : List String := ["model_path"]

/-- The required input names declared by BagelPrompt.INPUT_TYPES. -/
def BagelPrompt_required_inputs : List String := ["text"]

/-- The parameters of input_text, self excluded. -/
def BagelPrompt_function_params : List String := ["text"]

/-- The required input names declared by LoadEditImage.INPUT_TYPES. -/
def LoadEditImage_required_inputs : List String := ["image_path"]

/-- The parameters of input_image, self excluded. -/
def LoadEditImage_function_params : List String := ["image_path"]

/-- The required input names declared by ImageGeneration.INPUT_TYPES,
nodes.py 184-282, in declaration order. -/
def ImageGeneration_required_inputs : List String :=
  [ "model", "vae_model", "tokenizer", "vae_transform", "vit_transform"
  , "new_token_ids", "prompt", "seed", "image_ratio", "cfg_text_scale"
  , "cfg_img_scale", "cfg_interval", "timestep_shift", "num_timesteps"
  , "cfg_renorm_min", "cfg_renorm_type", "text_temperature" ]

/-- The parameters of ImageGeneration.generate, nodes.py 289-291,
self excluded. -/
def ImageGeneration_function_params : List String :=
  [ "model", "vae_model", "tokenizer", "vae_transform", "vit_transform"
  , "new_token_ids", "prompt", "image_ratio", "seed", "cfg_text_scale"
  , "cfg_img_scale", "cfg_interval", "timestep_shift", "num_timesteps"
  , "cfg_renorm_min", "cfg_renorm_type", "text_temperature" ]

/-- The required input names declared by ImageThinkGeneration.INPUT_TYPES,
nodes.py 329-428. -/
def ImageThinkGeneration_required_inputs : List String :=
  [ "model", "vae_model", "tokenizer", "vae_transform", "vit_transform"
  , "new_token_ids", "prompt", "max_think_token_n", "seed", "image_ratio"
  , "cfg_text_scale", "cfg_img_scale", "cfg_interval", "timestep_shift"
  , "num_timesteps", "cfg_renorm_min", "cfg_renorm_type"
  , "text_temperature" ]

/-- The parameters of ImageThinkGeneration.generate, nodes.py 435-437,
self excluded: there is no image_ratio parameter. -/
def ImageThinkGeneration_function_params : List String :=
  [ "model", "vae_model", "tokenizer", "vae_transform", "vit_transform"
  , "new_token_ids", "prompt", "seed", "max_think_token_n"
  , "cfg_text_scale", "cfg_img_scale", "timestep_shift", "num_timesteps"
  , "cfg_renorm_min", "cfg_interval", "cfg_renorm_type"
  , "text_temperature" ]

/-- The required input names declared by ImageEditing.INPUT_TYPES,
nodes.py 479-578. -/
def ImageEditing_required_inputs : List String :=
  [ "model", "vae_model", "tokenizer", "vae_transform", "vit_transform"
  , "new_token_ids", "prompt", "image", "seed", "image_ratio"
  , "cfg_text_scale", "cfg_img_scale", "cfg_interval", "timestep_shift"
  , "num_timesteps", "cfg_renorm_min", "cfg_renorm_type"
  , "text_temperature" ]

/-- The parameters of ImageEditing.editing, nodes.py 585-586, self
excluded: image_ratio, cfg_interval, cfg_renorm_type and
text_temperature are missing. -/
def ImageEditing_function_params : List String :=
  [ "model", "vae_model", "tokenizer", "vae_transform", "vit_transform"
  , "new_token_ids", "prompt", "image", "seed", "cfg_text_scale"
  , "cfg_img_scale", "timestep_shift", "num_timesteps", "cfg_renorm_min" ]

/-- The required input names declared by ImageThinkEditing.INPUT_TYPES,
nodes.py 624-724. -/
def ImageThinkEditing_required_inputs : List String :=
  [ "model", "vae_model", "tokenizer", "vae_transform", "vit_transform"
  , "new_token_ids", "prompt", "image", "max_think_token_n", "seed"
  , "image_ratio", "cfg_text_scale", "cfg_img_scale", "cfg_interval"
  , "timestep_shift", "num_timesteps", "cfg_renorm_min"
  , "cfg_renorm_type", "text_temperature" ]

/-- The parameters of ImageThinkEditing.editing, nodes.py 731-732, self
excluded: image_ratio, cfg_interval, cfg_renorm_type and
text_temperature are missing. -/
def ImageThinkEditing_function_params : List String :=
  [ "model", "vae_model", "tokenizer", "vae_transform", "vit_transform"
  , "new_token_ids", "prompt", "image", "seed", "max_think_token_n"
  , "cfg_text_scale", "cfg_img_scale", "timestep_shift", "num_timesteps"
  , "cfg_renorm_min" ]

/-- The required input names declared by ImageUnderstanding.INPUT_TYPES,
nodes.py 774-788. -/
def ImageUnderstanding_required_inputs : List String :=
  [ "model", "vae_model", "tokenizer", "vae_transform", "vit_transform"
  , "new_token_ids", "prompt", "image", "seed", "max_think_token_n" ]

/-- The parameters of ImageUnderstanding.understanding, nodes.py
795-796, self excluded. -/
def ImageUnderstanding_function_params : List String :=
  [ "model", "vae_model", "tokenizer", "vae_transform", "vit_transform"
  , "new_token_ids", "prompt", "image", "seed", "max_think_token_n" ]

/-- A host-style call succeeds exactly when every declared required input
name is accepted by the parameter list of the designated function. -/
def schema_call_ok (inputs params : List String) : Bool :=
  inputs.all (fun k => params.contains k)

/- ------------------------------------------------------------------ -/
/- Dictionary lemmas for the device-map post-processing pass          -/
/- ------------------------------------------------------------------ -/

theorem lookupDM_setDM (m : DeviceMap) (k k2 : String) (v : PyVal) :
    lookupDM (setDM m k v) k2 = if k2 = k then some v else lookupDM m k2 := by
  induction m with
  | nil =>
    by_cases h : k2 = k
    · subst h; simp [setDM, lookupDM]
    · have h1 : ¬ k = k2 := fun hh => h hh.symm
      simp [setDM, lookupDM, h, h1]
  | cons p rest ih =>
    obtain ⟨k0, v0⟩ := p
    by_cases h0 : k0 = k
    · subst h0
      by_cases h2 : k2 = k0
      · subst h2; simp [setDM, lookupDM]
      · have h3 : ¬ k0 = k2 := fun hh => h2 hh.symm
        simp [setDM, lookupDM, h2, h3]
    · by_cases h2 : k2 = k
      · subst h2
        have hne : ¬ k0 = k2 := h0
        simp [setDM, lookupDM, h0, hne, ih]
      · by_cases h3 : k0 = k2
        · subst h3
          simp [setDM, lookupDM, h0, h2, ih]
        · simp [setDM, lookupDM, h0, h2, h3, ih]

theorem containsDM_setDM_of (m : DeviceMap) (k k2 : String) (v : PyVal)
    (h : containsDM m k2 = true) : containsDM (setDM m k v) k2 = true := by
  unfold containsDM at h ⊢
  rw [lookupDM_setDM]
  by_cases h2 : k2 = k
  · simp [h2]
  · simpa [h2] using h

theorem pyGetD_eq_pyGet (m : DeviceMap) (k : String) (d : PyVal)
    (h : containsDM m k = true) : pyGetD m k d = pyGet m k := by
  unfold containsDM at h
  obtain ⟨x, hx⟩ := Option.isSome_iff_exists.mp h
  unfold pyGetD pyGet
  rw [hx]
  rfl

/-- Folding a step that behaves as a fixed-value setter on contained keys
preserves any key that already stores that value, as long as every key of
the fold list is contained. -/
theorem foldl_setlike_stable (v : PyVal)
    (step : DeviceMap → String → DeviceMap)
    (hstep : ∀ acc k, containsDM acc k = true → step acc k = setDM acc k v) :
    ∀ (l : List String) (m : DeviceMap) (k : String),
      lookupDM m k = some v → (∀ k2 ∈ l, containsDM m k2 = true) →
      lookupDM (List.foldl step m l) k = some v := by
  intro l
  induction l with
  | nil => intro m k hk _; simpa using hk
  | cons k0 tl ih =>
    intro m k hk hall
    have hc : containsDM m k0 = true := hall k0 (by simp)
    have hst : step m k0 = setDM m k0 v := hstep m k0 hc
    simp only [List.foldl_cons, hst]
    apply ih
    · rw [lookupDM_setDM]
      by_cases h2 : k = k0 <;> simp [h2, hk]
    · intro k2 hk2
      exact containsDM_setDM_of _ _ _ _ (hall k2 (by simp [hk2]))

/-- After folding such a step over a list whose keys are all contained,
every key of the list stores the fixed value. -/
theorem foldl_setlike_lookup (v : PyVal)
    (step : DeviceMap → String → DeviceMap)
    (hstep : ∀ acc k, containsDM acc k = true → step acc k = setDM acc k v) :
    ∀ (l : List String) (m : DeviceMap),
      (∀ k2 ∈ l, containsDM m k2 = true) →
      ∀ k ∈ l, lookupDM (List.foldl step m l) k = some v := by
  intro l
  induction l with
  | nil => intro m _ k hk; simp at hk
  | cons k0 tl ih =>
    intro m hall k hk
    have hc : containsDM m k0 = true := hall k0 (by simp)
    have hst : step m k0 = setDM m k0 v := hstep m k0 hc
    simp only [List.foldl_cons, hst]
    have hall1 : ∀ k2 ∈ tl, containsDM (setDM m k0 v) k2 = true :=
      fun k2 hk2 => containsDM_setDM_of _ _ _ _ (hall k2 (by simp [hk2]))
    rcases List.mem_cons.mp hk with h | h
    · subst h
      apply foldl_setlike_stable v step hstep tl (setDM m k v) k _ hall1
      rw [lookupDM_setDM]
      simp
    · exact ih (setDM m k0 v) hall1 k h

/- ------------------------------------------------------------------ -/
/- Claim theorems                                                     -/
/- ------------------------------------------------------------------ -/

/-- Claim C1: for every call of each of the four image-producing dispatch
variants, the keyword set passed to the inferencer matches the table:
Generation passes cfg_interval [0.4, 1.0] with the user-selected renorm
type and no think flag; Think-Generation passes [0.4, 1.0] with renorm
type forced to global and think true; Editing and Think-Editing pass
[0.0, 1.0] with renorm type forced to text_channel, Think-Editing with
think true. -/
theorem dispatch_hyper_matches_table :
    (∀ a : GenerationArgs,
      (ImageGeneration_dispatch a).2.hyper.cfg_interval = some [0.4, 1.0] ∧
      (ImageGeneration_dispatch a).2.hyper.cfg_renorm_type
        = some a.cfg_renorm_type ∧
      (ImageGeneration_dispatch a).2.think = false) ∧
    (∀ a : ThinkGenerationArgs,
      (ImageThinkGeneration_dispatch a).2.hyper.cfg_interval
        = some [0.4, 1.0] ∧
      (ImageThinkGeneration_dispatch a).2.hyper.cfg_renorm_type
        = some "global" ∧
      (ImageThinkGeneration_dispatch a).2.think = true) ∧
    (∀ a : EditingArgs,
      (ImageEditing_dispatch a).2.hyper.cfg_interval = some [0.0, 1.0] ∧
      (ImageEditing_dispatch a).2.hyper.cfg_renorm_type
        = some "text_channel" ∧
      (ImageEditing_dispatch a).2.think = false) ∧
    (∀ a : ThinkEditingArgs,
      (ImageThinkEditing_dispatch a).2.hyper.cfg_interval
        = some [0.0, 1.0] ∧
      (ImageThinkEditing_dispatch a).2.hyper.cfg_renorm_type
        = some "text_channel" ∧
      (ImageThinkEditing_dispatch a).2.think = true) :=
  ⟨fun _ => ⟨rfl, rfl, rfl⟩, fun _ => ⟨rfl, rfl, rfl⟩,
   fun _ => ⟨rfl, rfl, rfl⟩, fun _ => ⟨rfl, rfl, rfl⟩⟩

/-- Claim C2, counterexample: the co-location set of the source has seven
names, not eight, and for a multi-device placement plan containing only
two of the listed names, the post-processing pass leaves the name vae2llm
without any assignment while the first listed name is assigned device 0:
the listed names do not all map to one single device identifier. -/
theorem colocation_counterexample :
    "vae2llm" ∈ same_device_modules ∧
    same_device_modules.length = 7 ∧
    lookupDM
      (postProcessDeviceMap 2
        [ ("language_model.model.embed_tokens", some (Device.idx 0))
        , ("time_embedder", some (Device.idx 1)) ]) "vae2llm" = none ∧
    lookupDM
      (postProcessDeviceMap 2
        [ ("language_model.model.embed_tokens", some (Device.idx 0))
        , ("time_embedder", some (Device.idx 1)) ])
      "language_model.model.embed_tokens" = some (some (Device.idx 0)) := by
  decide

/-- Claim C2, amended: for every placement plan in which each of the
seven co-location module names appears as a key, and for every device
count, the post-processing pass maps every one of the seven names to the
value the plan assigned to the first of them. -/
theorem same_device_modules_colocated (dc : Nat) (m : DeviceMap)
    (hall : ∀ k ∈ same_device_modules, containsDM m k = true) :
    ∀ k ∈ same_device_modules,
      lookupDM (postProcessDeviceMap dc m) k
        = some (pyGet m (List.headI same_device_modules)) := by
  intro k hk
  have hhead : containsDM m (List.headI same_device_modules) = true :=
    hall (List.headI same_device_modules) (by decide)
  unfold postProcessDeviceMap
  by_cases hdc : dc = 1
  · rw [if_pos hdc]
    have h1 := foldl_setlike_lookup
      (pyGetD m (List.headI same_device_modules) (some (Device.cudaStr 0)))
      (fun acc k2 =>
        if containsDM acc k2 then
          setDM acc k2
            (pyGetD m (List.headI same_device_modules)
              (some (Device.cudaStr 0)))
        else
          setDM acc k2 (some (Device.cudaStr 0)))
      (fun acc k2 hc => by simp [hc])
      same_device_modules m hall k hk
    rw [← pyGetD_eq_pyGet m (List.headI same_device_modules)
      (some (Device.cudaStr 0)) hhead]
    exact h1
  · rw [if_neg hdc]
    exact foldl_setlike_lookup
      (pyGet m (List.headI same_device_modules))
      (fun acc k2 =>
        if containsDM acc k2 then
          setDM acc k2 (pyGet m (List.headI same_device_modules))
        else acc)
      (fun acc k2 hc => by simp [hc])
      same_device_modules m hall k hk

/-- A placement plan for two devices containing all seven co-location
module names, used to instantiate the amended co-location theorem. -/
def demoPlan : DeviceMap :=
  [ ("language_model.model.embed_tokens", some (Device.idx 0))
  , ("time_embedder", some (Device.idx 1))
  , ("latent_pos_embed", some (Device.idx 1))
  , ("vae2llm", some (Device.idx 0))
  , ("llm2vae", some (Device.idx 1))
  , ("connector", some (Device.idx 1))
  , ("vit_pos_embed", some (Device.idx 1)) ]

/-- Claim C2, witness: on a concrete two-device plan containing all seven
names, the post-processing pass moves vit_pos_embed to device 0, the
device of the first listed name. -/
theorem same_device_modules_colocated_witness :
    lookupDM (postProcessDeviceMap 2 demoPlan) "vit_pos_embed"
      = some (some (Device.idx 0)) :=
  (same_device_modules_colocated 2 demoPlan (by decide)
    "vit_pos_embed" (by decide)).trans (by decide)

/-- Claim C3: the Understanding dispatch writes the literal 1000 into the
keyword set, not the caller-supplied max_think_token_n; two calls
differing only in that input assemble identical invocations. -/
theorem understanding_ignores_max_think_token_n :
    (∀ a : UnderstandingArgs,
      (ImageUnderstanding_dispatch a).2.hyper.max_think_token_n
        = some 1000) ∧
    (∀ (a : UnderstandingArgs) (n₁ n₂ : Nat),
      ImageUnderstanding_dispatch { a with max_think_token_n := n₁ } =
      ImageUnderstanding_dispatch { a with max_think_token_n := n₂ }) :=
  ⟨fun _ => rfl, fun _ _ _ => rfl⟩

/-- Claim C4: the loader, the two capture nodes, Generation and
Understanding accept every declared required input name, but the
designated functions of Think-Generation, Editing and Think-Editing do
not: Think-Generation lacks image_ratio, and the two editing variants
lack image_ratio, cfg_interval, cfg_renorm_type and text_temperature, so
a host-style call with one keyword per declared field fails there. -/
theorem node_schema_function_mismatch :
    schema_call_ok LoadBAGELModel_required_inputs
      LoadBAGELModel_function_params = true ∧
    schema_call_ok BagelPrompt_required_inputs
      BagelPrompt_function_params = true ∧
    schema_call_ok LoadEditImage_required_inputs
      LoadEditImage_function_params = true ∧
    schema_call_ok ImageGeneration_required_inputs
      ImageGeneration_function_params = true ∧
    schema_call_ok ImageUnderstanding_required_inputs
      ImageUnderstanding_function_params = true ∧
    schema_call_ok ImageThinkGeneration_required_inputs
      ImageThinkGeneration_function_params = false ∧
    schema_call_ok ImageEditing_required_inputs
      ImageEditing_function_params = false ∧
    schema_call_ok ImageThinkEditing_required_inputs
      ImageThinkEditing_function_params = false ∧
    ("image_ratio" ∈ ImageThinkGeneration_required_inputs ∧
     "image_ratio" ∉ ImageThinkGeneration_function_params) ∧
    ("image_ratio" ∈ ImageEditing_required_inputs ∧
     "cfg_interval" ∈ ImageEditing_required_inputs ∧
     "cfg_renorm_type" ∈ ImageEditing_required_inputs ∧
     "text_temperature" ∈ ImageEditing_required_inputs ∧
     "image_ratio" ∉ ImageEditing_function_params ∧
     "cfg_interval" ∉ ImageEditing_function_params ∧
     "cfg_renorm_type" ∉ ImageEditing_function_params ∧
     "text_temperature" ∉ ImageEditing_function_params) ∧
    ("image_ratio" ∈ ImageThinkEditing_required_inputs ∧
     "image_ratio" ∉ ImageThinkEditing_function_params) := by
  decide

/-- Claim C5: the reseed preamble shared by all five dispatch variants
overwrites every generator a downstream draw can observe with values
derived from the seed alone, so two calls in succession with the same
seed leave identical observable generator states whatever the prior
process-wide generator states were, and every downstream draw sequence
computed from those states is identical between the two runs. -/
theorem dispatch_seed_determinism (seed : Nat) (cuda : Bool)
    (st₁ st₂ : RngState)
    (draw : Nat × Nat × Nat × Option (Nat × Nat) → List Nat) :
    draw (observed_gens cuda (seed_all seed cuda st₁)) =
    draw (observed_gens cuda (seed_all seed cuda st₂)) := by
  cases cuda <;> rfl

/-- Claim C6: for every seed in the declared range, including 0, the
preamble seeds the general-purpose, numeric-array and model-framework
generators with that literal value through the one unconditional code
path; seed 0 is not special-cased. -/
theorem seed_zero_not_special (seed : Nat) (cuda : Bool) (st : RngState)
    (_h : seed ≤ 1000000) :
    (seed_all seed cuda st).py_random = seed ∧
    (seed_all seed cuda st).np_random = seed ∧
    (seed_all seed cuda st).torch_cpu = seed ∧
    (cuda = true →
      (seed_all seed cuda st).torch_cuda = seed ∧
      (seed_all seed cuda st).torch_cuda_all = seed) := by
  cases cuda <;> simp [seed_all]

/-- Claim C6, witness: the theorem instantiated at the seed 0 itself. -/
theorem seed_zero_not_special_witness :
    (seed_all 0 true ⟨7, 8, 9, 10, 11, false, true⟩).py_random = 0 ∧
    (seed_all 0 true ⟨7, 8, 9, 10, 11, false, true⟩).np_random = 0 ∧
    (seed_all 0 true ⟨7, 8, 9, 10, 11, false, true⟩).torch_cpu = 0 :=
  ⟨(seed_zero_not_special 0 true ⟨7, 8, 9, 10, 11, false, true⟩
      (Nat.zero_le _)).1,
   (seed_zero_not_special 0 true ⟨7, 8, 9, 10, 11, false, true⟩
      (Nat.zero_le _)).2.1,
   (seed_zero_not_special 0 true ⟨7, 8, 9, 10, 11, false, true⟩
      (Nat.zero_le _)).2.2.1⟩

/-- Claim C7: when a required configuration file is absent or malformed
the loader returns an error and no bundle, and in every execution the
loader either returns an error or a complete six-element bundle; no
partially constructed bundle is ever produced. -/
theorem load_model_all_or_nothing :
    (∀ env : LoaderEnv,
      env.llm_config_file = none ∨ env.vit_config_file = none →
      ∃ e, load_model env = Except.error e) ∧
    (∀ env : LoaderEnv,
      (∃ e, load_model env = Except.error e) ∨
      (∃ b, load_model env = Except.ok b)) := by
  constructor
  · intro env h
    rcases h with h | h
    · exact ⟨_, by unfold load_model; rw [h]⟩
    · cases hl : env.llm_config_file with
      | none => exact ⟨_, by unfold load_model; rw [hl]⟩
      | some llm0 => exact ⟨_, by unfold load_model; rw [hl, h]⟩
  · intro env
    unfold load_model
    cases hl : env.llm_config_file with
    | none => exact Or.inl ⟨_, rfl⟩
    | some llm0 =>
      cases hv : env.vit_config_file with
      | none => exact Or.inl ⟨_, rfl⟩
      | some vit0 =>
        cases ha : env.ae_file with
        | none => exact Or.inl ⟨_, rfl⟩
        | some p =>
          obtain ⟨am, ac⟩ := p
          cases ht : env.tokenizer_file with
          | none => exact Or.inl ⟨_, rfl⟩
          | some q =>
            obtain ⟨tk, ids⟩ := q
            cases hck : env.checkpoint_ok with
            | true => exact Or.inr ⟨_, rfl⟩
            | false => exact Or.inl ⟨_, rfl⟩

/-- Claim C7, witness: a load with the llm configuration file absent
returns an error. -/
theorem load_model_all_or_nothing_witness :
    ∃ e, load_model
      { cuda_device_count := 1
        llm_config_file := none
        vit_config_file := none
        ae_file := none
        tokenizer_file := none
        auto_device_map := []
        checkpoint_ok := true } = Except.error e :=
  load_model_all_or_nothing.1 _ (Or.inl rfl)

/-- Claim C8: the two parameter-capture node functions return their input
string unchanged, for every string. -/
theorem capture_nodes_identity :
    ∀ s : String, input_text s = s ∧ input_image s = s :=
  fun _ => ⟨rfl, rfl⟩

/-- Claim C9: two Generation dispatch calls that differ only in the
image_ratio input construct the same inferencer wrapper, the same
keyword set, and the same invocation, and reseed from the same seed: the
declared image_ratio input has no influence on the dispatch. -/
theorem image_ratio_no_influence (a : GenerationArgs) (r₁ r₂ : String) :
    ImageGeneration_dispatch { a with image_ratio := r₁ } =
      ImageGeneration_dispatch { a with image_ratio := r₂ } ∧
    ImageGeneration_inference_hyper { a with image_ratio := r₁ } =
      ImageGeneration_inference_hyper { a with image_ratio := r₂ } ∧
    (∀ (cuda : Bool) (st : RngState),
      seed_all (GenerationArgs.seed { a with image_ratio := r₁ }) cuda st =
      seed_all (GenerationArgs.seed { a with image_ratio := r₂ }) cuda st) :=
  ⟨rfl, rfl, fun _ _ => rfl⟩

/-- Claim C10: when the result mapping returned by the inferencer lacks
the key a variant extracts, the extraction raises a lookup error and the
variant returns no output tuple: image for the image-producing variants,
text for the think and understanding variants. -/
theorem missing_result_key_raises :
    (∀ r : InferenceResult, r.image = none →
      ∃ e, ImageGeneration_extract r = Except.error e) ∧
    (∀ r : InferenceResult, r.image = none ∨ r.text = none →
      ∃ e, ImageThinkGeneration_extract r = Except.error e) ∧
    (∀ r : InferenceResult, r.image = none →
      ∃ e, ImageEditing_extract r = Except.error e) ∧
    (∀ r : InferenceResult, r.image = none ∨ r.text = none →
      ∃ e, ImageThinkEditing_extract r = Except.error e) ∧
    (∀ r : InferenceResult, r.text = none →
      ∃ e, ImageUnderstanding_extract r = Except.error e) := by
  refine ⟨?g1, ?g2, ?g3, ?g4, ?g5⟩
  · intro r h
    exact ⟨_, by unfold ImageGeneration_extract; rw [h]⟩
  · intro r h
    rcases h with h | h
    · exact ⟨_, by unfold ImageThinkGeneration_extract; rw [h]⟩
    · cases hi : r.image with
      | none => exact ⟨_, by unfold ImageThinkGeneration_extract; rw [hi]⟩
      | some img =>
        exact ⟨_, by unfold ImageThinkGeneration_extract; rw [hi, h]⟩
  · intro r h
    exact ⟨_, by unfold ImageEditing_extract; rw [h]⟩
  · intro r h
    rcases h with h | h
    · exact ⟨_, by unfold ImageThinkEditing_extract; rw [h]⟩
    · cases hi : r.image with
      | none => exact ⟨_, by unfold ImageThinkEditing_extract; rw [hi]⟩
      | some img =>
        exact ⟨_, by unfold ImageThinkEditing_extract; rw [hi, h]⟩
  · intro r h
    exact ⟨_, by unfold ImageUnderstanding_extract; rw [h]⟩

/-- Claim C10, witness: concrete result mappings missing the extracted
key make every variant raise. -/
theorem missing_result_key_raises_witness :
    (∃ e, ImageGeneration_extract ⟨none, some "t"⟩ = Except.error e) ∧
    (∃ e, ImageThinkGeneration_extract ⟨some 0, none⟩ = Except.error e) ∧
    (∃ e, ImageEditing_extract ⟨none, none⟩ = Except.error e) ∧
    (∃ e, ImageThinkEditing_extract ⟨none, some "t"⟩ = Except.error e) ∧
    (∃ e, ImageUnderstanding_extract ⟨some 3, none⟩ = Except.error e) :=
  ⟨missing_result_key_raises.1 ⟨none, some "t"⟩ rfl,
   missing_result_key_raises.2.1 ⟨some 0, none⟩ (Or.inr rfl),
   missing_result_key_raises.2.2.1 ⟨none, none⟩ rfl,
   missing_result_key_raises.2.2.2.1 ⟨none, some "t"⟩ (Or.inl rfl),
   missing_result_key_raises.2.2.2.2 ⟨some 3, none⟩ rfl⟩

end BagelNodes

